import Mathlib

/-!
# Verification of the NanEcho automation-integration decision engine

Shallow embedding of `echoself/NanEcho/automation_integration.py`
(class `NanEchoAutomationIntegrator`): the quality-gate evaluator,
performance-trend analyzer, recommendation engine, next-action planner,
automation-trigger generator, the analysis orchestrator and its
improvement history, and the recursive configuration merge
(`_deep_update` over JSON-shaped dictionaries).

Python floats are modelled as rationals (`ℚ`); all comparisons in the
source are order comparisons and exact-boundary checks, which `ℚ`
reproduces faithfully.  Training modes and status labels are the strings
the source branches on.
-/

namespace NanEcho

/-- The fidelity-metrics record consumed by the analyzer: six named
dimensions plus the overall score (`fidelity_metrics` dictionary in the
source; missing keys default to `0.0` upstream, so the record is total). -/
structure FidelityMetrics where
  identity_recognition : ℚ
  persona_consistency : ℚ
  adaptive_attention_understanding : ℚ
  recursive_reasoning_capability : ℚ
  hypergraph_comprehension : ℚ
  cognitive_synergy_demonstration : ℚ
  overall_fidelity : ℚ
deriving Repr, DecidableEq

/-- `quality_gates` group of the configuration. -/
structure QualityGatesConfig where
  min_fidelity_production : ℚ
  min_fidelity_development : ℚ
  min_identity_recognition : ℚ
  min_persona_consistency : ℚ
  max_performance_decline : ℚ
deriving Repr, DecidableEq

/-- `training_triggers` group of the configuration. -/
structure TrainingTriggersConfig where
  auto_retrain_on_failure : Bool
  relentless_training_interval_hours : ℚ
  max_consecutive_failures : ℕ
  performance_improvement_threshold : ℚ
deriving Repr, DecidableEq

/-- `feedback_integration` group of the configuration. -/
structure FeedbackIntegrationConfig where
  enable_hyperparameter_adjustment : Bool
  enable_dataset_enhancement : Bool
  enable_curriculum_adaptation : Bool
  max_training_iterations_increase : ℚ
deriving Repr, DecidableEq

/-- `deployment` group of the configuration. -/
structure DeploymentConfig where
  enable_automated_deployment : Bool
  require_manual_approval : Bool
  staging_environment_tests : Bool
deriving Repr, DecidableEq

/-- The full configuration record (`self.config`). -/
structure Config where
  quality_gates : QualityGatesConfig
  training_triggers : TrainingTriggersConfig
  feedback_integration : FeedbackIntegrationConfig
  deployment : DeploymentConfig
deriving Repr, DecidableEq

/-- The `default_config` literal of `_load_config`
(0.85, 0.70, 0.80, 0.75, 0.10; True, 4, 3, 0.05; True, True, True, 2.0;
False, True, True). -/
def default_config : Config :=
  { quality_gates :=
      { min_fidelity_production := 17/20
        min_fidelity_development := 7/10
        min_identity_recognition := 4/5
        min_persona_consistency := 3/4
        max_performance_decline := 1/10 }
    training_triggers :=
      { auto_retrain_on_failure := true
        relentless_training_interval_hours := 4
        max_consecutive_failures := 3
        performance_improvement_threshold := 1/20 }
    feedback_integration :=
      { enable_hyperparameter_adjustment := true
        enable_dataset_enhancement := true
        enable_curriculum_adaptation := true
        max_training_iterations_increase := 2 }
    deployment :=
      { enable_automated_deployment := false
        require_manual_approval := true
        staging_environment_tests := true } }

/-- One entry of `individual_gates` in the quality-gate result:
`{"passed": ..., "score": ..., "threshold": ...}`. -/
structure GateEntry where
  passed : Bool
  score : ℚ
  threshold : ℚ
deriving Repr, DecidableEq

/-- The dictionary returned by `_evaluate_quality_gates`; the three
`individual_gates` entries are the record's three `GateEntry` fields. -/
structure QualityStatus where
  status : String
  overall_passed : Bool
  overall_fidelity_gate : GateEntry
  identity_recognition_gate : GateEntry
  persona_consistency_gate : GateEntry
  min_required_fidelity : ℚ
  deployment_ready : Bool
deriving Repr, DecidableEq

/-- `_evaluate_quality_gates(fidelity_metrics, training_mode)`:
mode-dependent threshold selection, the three named gates, the aggregate
pass and the deployment-readiness flag. -/
def evaluate_quality_gates (config : Config) (fidelity_metrics : FidelityMetrics)
    (training_mode : String) : QualityStatus :=
  let gates := config.quality_gates
  let min_fidelity :=
    if training_mode = "relentless" then gates.min_fidelity_production
    else if training_mode = "ci" then gates.min_fidelity_development * (8/10)
    else gates.min_fidelity_development
  let overall_fidelity := fidelity_metrics.overall_fidelity
  let identity_recognition := fidelity_metrics.identity_recognition
  let persona_consistency := fidelity_metrics.persona_consistency
  let overall_gate : GateEntry :=
    { passed := decide (overall_fidelity ≥ min_fidelity)
      score := overall_fidelity
      threshold := min_fidelity }
  let identity_gate : GateEntry :=
    { passed := decide (identity_recognition ≥ gates.min_identity_recognition)
      score := identity_recognition
      threshold := gates.min_identity_recognition }
  let persona_gate : GateEntry :=
    { passed := decide (persona_consistency ≥ gates.min_persona_consistency)
      score := persona_consistency
      threshold := gates.min_persona_consistency }
  let all_passed := overall_gate.passed && identity_gate.passed && persona_gate.passed
  { status := if all_passed then "passed" else "failed"
    overall_passed := all_passed
    overall_fidelity_gate := overall_gate
    identity_recognition_gate := identity_gate
    persona_consistency_gate := persona_gate
    min_required_fidelity := min_fidelity
    deployment_ready := all_passed && decide (overall_fidelity ≥ gates.min_fidelity_production) }

/-- One entry of `self.improvement_history`, as appended by
`save_analysis_results` (nested `fidelity_metrics` holds only
`overall_fidelity` there, so the entry is flattened to that score). -/
structure HistoryEntry where
  timestamp : String
  overall_fidelity : ℚ
  quality_status : String
  training_mode : String
deriving Repr, DecidableEq

/-- The dictionary returned by `_analyze_performance_trends`; the
`previous_fidelity` / `current_fidelity` keys are absent on the
empty-history (`initial`) return, hence `Option`. -/
structure TrendResult where
  trend : String
  change : ℚ
  status : String
  previous_fidelity : Option ℚ
  current_fidelity : Option ℚ
deriving Repr, DecidableEq

/-- `_analyze_performance_trends(current_metrics)`: compare the current
overall fidelity against the last `improvement_history` entry. -/
def analyze_performance_trends (config : Config) (improvement_history : List HistoryEntry)
    (current_metrics : FidelityMetrics) : TrendResult :=
  match improvement_history.getLast? with
  | none =>
      { trend := "initial", change := 0, status := "baseline"
        previous_fidelity := none, current_fidelity := none }
  | some previous =>
      let previous_fidelity := previous.overall_fidelity
      let current_fidelity := current_metrics.overall_fidelity
      let change := current_fidelity - previous_fidelity
      let threshold := config.training_triggers.performance_improvement_threshold
      if change > threshold then
        { trend := "improving", change := change, status := "good"
          previous_fidelity := some previous_fidelity
          current_fidelity := some current_fidelity }
      else if change < -config.quality_gates.max_performance_decline then
        { trend := "declining", change := change, status := "concerning"
          previous_fidelity := some previous_fidelity
          current_fidelity := some current_fidelity }
      else
        { trend := "stable", change := change, status := "neutral"
          previous_fidelity := some previous_fidelity
          current_fidelity := some current_fidelity }

/-- The four recommendation lists returned by
`_generate_improvement_recommendations`. -/
structure Recommendations where
  immediate : List String
  next_training_cycle : List String
  long_term : List String
  hyperparameter_adjustments : List String
deriving Repr, DecidableEq

/-- `_generate_improvement_recommendations(fidelity_metrics, training_mode,
quality_status)`.  The failed-gate loop iterates `individual_gates` in its
insertion order (`overall_fidelity`, `identity_recognition`,
`persona_consistency`). -/
def generate_improvement_recommendations (fidelity_metrics : FidelityMetrics)
    (training_mode : String) (quality_status : QualityStatus) : Recommendations :=
  let r0 : Recommendations := ⟨[], [], [], []⟩
  let r1 :=
    if quality_status.overall_fidelity_gate.passed then r0
    else { r0 with
             immediate := r0.immediate ++ ["Review overall training approach"]
             hyperparameter_adjustments :=
               r0.hyperparameter_adjustments ++ ["extend_training_duration"] }
  let r2 :=
    if quality_status.identity_recognition_gate.passed then r1
    else { r1 with
             immediate := r1.immediate ++ ["Increase Echo Self identity training examples"]
             hyperparameter_adjustments :=
               r1.hyperparameter_adjustments ++ ["increase_identity_weight"] }
  let r3 :=
    if quality_status.persona_consistency_gate.passed then r2
    else { r2 with
             immediate := r2.immediate ++ ["Balance training across all persona dimensions"]
             hyperparameter_adjustments :=
               r2.hyperparameter_adjustments ++ ["balance_persona_weights"] }
  let overall_fidelity := fidelity_metrics.overall_fidelity
  let r4 :=
    if overall_fidelity < 3/5 then
      { r3 with next_training_cycle := r3.next_training_cycle ++
          ["Increase training iterations significantly",
           "Enhance data quality and diversity",
           "Review model architecture parameters"] }
    else if overall_fidelity < 4/5 then
      { r3 with next_training_cycle := r3.next_training_cycle ++
          ["Fine-tune with targeted examples",
           "Adjust attention mechanism parameters"] }
    else r3
  if training_mode = "relentless" then
    let r5 :=
      if overall_fidelity < 17/20 then
        { r4 with next_training_cycle :=
            r4.next_training_cycle ++ ["Increase relentless training frequency"] }
      else r4
    { r5 with long_term := r5.long_term ++ ["Monitor continuous improvement trends"] }
  else
    if overall_fidelity > 3/4 then
      { r4 with next_training_cycle :=
          r4.next_training_cycle ++ ["Consider enabling relentless training mode"] }
    else r4

/-- The six boolean next-action flags of `_determine_next_actions`. -/
structure NextActions where
  continue_training : Bool
  deploy_model : Bool
  retrain_required : Bool
  enable_relentless_mode : Bool
  schedule_next_cycle : Bool
  manual_review_needed : Bool
deriving Repr, DecidableEq

/-- The branch part of `_determine_next_actions` (lines before the
final relentless-mode scheduling rule). -/
def determine_next_actions_branch (quality_status : QualityStatus)
    (training_mode : String) : NextActions :=
  let actions : NextActions := ⟨false, false, false, false, false, false⟩
  if quality_status.deployment_ready then
    if training_mode ≠ "relentless" then
      { actions with deploy_model := true, enable_relentless_mode := true,
                     schedule_next_cycle := true }
    else
      { actions with deploy_model := true }
  else if quality_status.status = "passed" then
    { actions with continue_training := true, schedule_next_cycle := true }
  else
    if quality_status.overall_fidelity_gate.score < 1/2 then
      { actions with retrain_required := true, manual_review_needed := true }
    else
      { actions with continue_training := true, schedule_next_cycle := true }

/-- `_determine_next_actions(quality_status, recommendations, training_mode)`:
the branch part followed by the cross-cutting rule that forces
`schedule_next_cycle` in relentless mode when not deployment-ready.
The `recommendations` argument is accepted and ignored, as in the source. -/
def determine_next_actions (quality_status : QualityStatus)
    (recommendations : Recommendations) (training_mode : String) : NextActions :=
  let _ := recommendations
  let actions := determine_next_actions_branch quality_status training_mode
  if training_mode = "relentless" ∧ ¬ quality_status.deployment_ready then
    { actions with schedule_next_cycle := true }
  else
    actions

/-- The dictionary returned by `_generate_automation_triggers`;
`hyperparameter_adjustments` is an insertion-ordered string-keyed map,
modelled as an association list. -/
structure AutomationTriggers where
  trigger_next_training : Bool
  training_delay_hours : ℚ
  hyperparameter_adjustments : List (String × String)
  dataset_enhancements : List String
  notification_required : Bool
deriving Repr, DecidableEq

/-- `_generate_automation_triggers(quality_status, training_mode)`. -/
def generate_automation_triggers (config : Config) (quality_status : QualityStatus)
    (training_mode : String) : AutomationTriggers :=
  let triggers : AutomationTriggers := ⟨false, 0, [], [], false⟩
  let triggers :=
    if ¬ quality_status.overall_passed ∧ config.training_triggers.auto_retrain_on_failure then
      { triggers with trigger_next_training := true, training_delay_hours := 1,
                      notification_required := true }
    else triggers
  let triggers :=
    if training_mode = "relentless" then
      { triggers with trigger_next_training := true,
                      training_delay_hours :=
                        config.training_triggers.relentless_training_interval_hours }
    else triggers
  let overall_fidelity := quality_status.overall_fidelity_gate.score
  if overall_fidelity < 7/10 then
    { triggers with hyperparameter_adjustments :=
        triggers.hyperparameter_adjustments ++
          [("learning_rate", "increase"), ("max_iters", "increase")] }
  else triggers

/-- The `analysis_results` dictionary assembled by
`analyze_training_results`. -/
structure AnalysisResults where
  timestamp : String
  model_path : String
  training_mode : String
  overall_fidelity : ℚ
  quality_gate_status : QualityStatus
  performance_analysis : TrendResult
  recommendations : Recommendations
  next_actions : NextActions
  automation_triggers : AutomationTriggers
deriving Repr, DecidableEq

/-- The mutable state of a `NanEchoAutomationIntegrator` instance:
`results_cache` (keyed by timestamp) and `improvement_history`. -/
structure IntegratorState where
  results_cache : List (String × AnalysisResults)
  improvement_history : List HistoryEntry
deriving Repr, DecidableEq

/-- `analyze_training_results(model_path, evaluation_report_path,
training_mode)`, given the metrics the loaded (or fallback-generated)
report provides and the current timestamp.  Returns the analysis record
and the updated integrator state: the result is cached under the
timestamp; `improvement_history` is untouched. -/
def analyze_training_results (config : Config) (state : IntegratorState)
    (timestamp model_path : String) (fidelity_metrics : FidelityMetrics)
    (training_mode : String) : AnalysisResults × IntegratorState :=
  let quality_status := evaluate_quality_gates config fidelity_metrics training_mode
  let performance_analysis :=
    analyze_performance_trends config state.improvement_history fidelity_metrics
  let recommendations :=
    generate_improvement_recommendations fidelity_metrics training_mode quality_status
  let next_actions := determine_next_actions quality_status recommendations training_mode
  let analysis_results : AnalysisResults :=
    { timestamp := timestamp
      model_path := model_path
      training_mode := training_mode
      overall_fidelity := fidelity_metrics.overall_fidelity
      quality_gate_status := quality_status
      performance_analysis := performance_analysis
      recommendations := recommendations
      next_actions := next_actions
      automation_triggers := generate_automation_triggers config quality_status training_mode }
  (analysis_results,
   { state with results_cache := state.results_cache ++ [(timestamp, analysis_results)] })

/-- `save_analysis_results(results, output_path)` restricted to its effect
on the integrator state: append one summary entry to
`improvement_history` (the file write is external I/O). -/
def save_analysis_results (state : IntegratorState) (results : AnalysisResults) :
    IntegratorState :=
  { state with improvement_history := state.improvement_history ++
      [{ timestamp := results.timestamp
         overall_fidelity := results.overall_fidelity
         quality_status := results.quality_gate_status.status
         training_mode := results.training_mode }] }

/-- JSON-shaped values, as handled by `json.load` and `_deep_update`;
objects are insertion-ordered string-keyed dictionaries, modelled as
association lists. -/
inductive JValue where
  | num : ℚ → JValue
  | bool : Bool → JValue
  | str : String → JValue
  | obj : List (String × JValue) → JValue

/-- Python dictionary assignment `base[key] = value`: overwrite in place
when the key exists (keeping its position), append otherwise. -/
def set_key : List (String × JValue) → String → JValue → List (String × JValue)
  | [], key, value => [(key, value)]
  | (k, v) :: rest, key, value =>
      if k = key then (k, value) :: rest else (k, v) :: set_key rest key value

/-- `_deep_update(base_dict, update_dict)`: recursively update nested
dictionaries, replacing non-dictionary values (and dictionary values
whose counterpart in the base is not a dictionary) outright. -/
def deep_update : List (String × JValue) → List (String × JValue) → List (String × JValue)
  | base_dict, [] => base_dict
  | base_dict, (key, JValue.obj update_fields) :: rest =>
      (match List.lookup key base_dict with
       | some (JValue.obj base_fields) =>
           deep_update (set_key base_dict key (JValue.obj (deep_update base_fields update_fields))) rest
       | _ => deep_update (set_key base_dict key (JValue.obj update_fields)) rest)
  | base_dict, (key, value) :: rest => deep_update (set_key base_dict key value) rest
  termination_by _ update => sizeOf update

/-- The `default_config` dictionary literal of `_load_config`, in its
JSON shape. -/
def default_config_json : List (String × JValue) :=
  [("quality_gates", JValue.obj
      [("min_fidelity_production", JValue.num (17/20)),
       ("min_fidelity_development", JValue.num (7/10)),
       ("min_identity_recognition", JValue.num (4/5)),
       ("min_persona_consistency", JValue.num (3/4)),
       ("max_performance_decline", JValue.num (1/10))]),
   ("training_triggers", JValue.obj
      [("auto_retrain_on_failure", JValue.bool true),
       ("relentless_training_interval_hours", JValue.num 4),
       ("max_consecutive_failures", JValue.num 3),
       ("performance_improvement_threshold", JValue.num (1/20))]),
   ("feedback_integration", JValue.obj
      [("enable_hyperparameter_adjustment", JValue.bool true),
       ("enable_dataset_enhancement", JValue.bool true),
       ("enable_curriculum_adaptation", JValue.bool true),
       ("max_training_iterations_increase", JValue.num 2)]),
   ("deployment", JValue.obj
      [("enable_automated_deployment", JValue.bool false),
       ("require_manual_approval", JValue.bool true),
       ("staging_environment_tests", JValue.bool true)])]

/-- `_load_config(config_path)`: the defaults, deep-updated with the
user-supplied configuration when one is present. -/
def load_config : Option (List (String × JValue)) → List (String × JValue)
  | none => default_config_json
  | some user_config => deep_update default_config_json user_config

/-- Look up a numeric field of a JSON object (`none` when absent or of
another type — the source would raise there). -/
def jnum (d : List (String × JValue)) (key : String) : Option ℚ :=
  match List.lookup key d with
  | some (JValue.num q) => some q
  | _ => none

/-- Look up a boolean field of a JSON object. -/
def jbool (d : List (String × JValue)) (key : String) : Option Bool :=
  match List.lookup key d with
  | some (JValue.bool b) => some b
  | _ => none

/-- Look up an object field of a JSON object. -/
def jobj (d : List (String × JValue)) (key : String) : Option (List (String × JValue)) :=
  match List.lookup key d with
  | some (JValue.obj fields) => some fields
  | _ => none

/-- Read back the `quality_gates` group of a loaded JSON configuration
(`none` where the source would raise `KeyError`/`TypeError`). -/
def parse_quality_gates (qg : List (String × JValue)) : Option QualityGatesConfig := do
  let mfp ← jnum qg "min_fidelity_production"
  let mfd ← jnum qg "min_fidelity_development"
  let mir ← jnum qg "min_identity_recognition"
  let mpc ← jnum qg "min_persona_consistency"
  let mpd ← jnum qg "max_performance_decline"
  pure ⟨mfp, mfd, mir, mpc, mpd⟩

/-- Read back the `training_triggers` group of a loaded JSON configuration. -/
def parse_training_triggers (tt : List (String × JValue)) : Option TrainingTriggersConfig := do
  let arf ← jbool tt "auto_retrain_on_failure"
  let rti ← jnum tt "relentless_training_interval_hours"
  let mcf ← jnum tt "max_consecutive_failures"
  let pit ← jnum tt "performance_improvement_threshold"
  pure ⟨arf, rti, mcf.num.toNat, pit⟩

/-- Read back the `feedback_integration` group of a loaded JSON configuration. -/
def parse_feedback_integration (fi : List (String × JValue)) : Option FeedbackIntegrationConfig := do
  let eha ← jbool fi "enable_hyperparameter_adjustment"
  let ede ← jbool fi "enable_dataset_enhancement"
  let eca ← jbool fi "enable_curriculum_adaptation"
  let mti ← jnum fi "max_training_iterations_increase"
  pure ⟨eha, ede, eca, mti⟩

/-- Read back the `deployment` group of a loaded JSON configuration. -/
def parse_deployment (dep : List (String × JValue)) : Option DeploymentConfig := do
  let ead ← jbool dep "enable_automated_deployment"
  let rma ← jbool dep "require_manual_approval"
  let s ← jbool dep "staging_environment_tests"
  pure ⟨ead, rma, s⟩

/-- Read a loaded JSON configuration back into the typed `Config` record,
field accesses mirroring the subscripts the decision functions perform. -/
def parse_config (j : List (String × JValue)) : Option Config := do
  let qg ← jobj j "quality_gates" >>= parse_quality_gates
  let tt ← jobj j "training_triggers" >>= parse_training_triggers
  let fi ← jobj j "feedback_integration" >>= parse_feedback_integration
  let dep ← jobj j "deployment" >>= parse_deployment
  pure ⟨qg, tt, fi, dep⟩

/-! ### Concrete sample inputs used by witnesses and counterexamples -/

/-- Metrics record with every score `0.5` (spec Scenario A). -/
def metrics_all_half : FidelityMetrics := ⟨1/2, 1/2, 1/2, 1/2, 1/2, 1/2, 1/2⟩

/-- Metrics record with every score `0.9` (spec Scenario B). -/
def metrics_all_09 : FidelityMetrics := ⟨9/10, 9/10, 9/10, 9/10, 9/10, 9/10, 9/10⟩

/-- Metrics record with every score `0.0`. -/
def metrics_zero : FidelityMetrics := ⟨0, 0, 0, 0, 0, 0, 0⟩

/-- An empty recommendations record (the planner ignores this argument). -/
def no_recommendations : Recommendations := ⟨[], [], [], []⟩

/-- A one-entry improvement history with previous overall fidelity `0.6`. -/
def history_06 : List HistoryEntry := [⟨"t0", 3/5, "failed", "standard"⟩]

/-- A user configuration override lowering the production fidelity bar
below the development one. -/
def c8_override : List (String × JValue) :=
  [("quality_gates", JValue.obj [("min_fidelity_production", JValue.num (1/2))])]

/-- The JSON shape `_load_config` produces under `c8_override`: the
defaults with only `quality_gates.min_fidelity_production` replaced. -/
def merged_json : List (String × JValue) :=
  [("quality_gates", JValue.obj
      [("min_fidelity_production", JValue.num (1/2)),
       ("min_fidelity_development", JValue.num (7/10)),
       ("min_identity_recognition", JValue.num (4/5)),
       ("min_persona_consistency", JValue.num (3/4)),
       ("max_performance_decline", JValue.num (1/10))]),
   ("training_triggers", JValue.obj
      [("auto_retrain_on_failure", JValue.bool true),
       ("relentless_training_interval_hours", JValue.num 4),
       ("max_consecutive_failures", JValue.num 3),
       ("performance_improvement_threshold", JValue.num (1/20))]),
   ("feedback_integration", JValue.obj
      [("enable_hyperparameter_adjustment", JValue.bool true),
       ("enable_dataset_enhancement", JValue.bool true),
       ("enable_curriculum_adaptation", JValue.bool true),
       ("max_training_iterations_increase", JValue.num 2)]),
   ("deployment", JValue.obj
      [("enable_automated_deployment", JValue.bool false),
       ("require_manual_approval", JValue.bool true),
       ("staging_environment_tests", JValue.bool true)])]

/-- The configuration `_load_config` produces under `c8_override`. -/
def c8_config : Config :=
  { default_config with quality_gates :=
      { default_config.quality_gates with min_fidelity_production := 1/2 } }

/-! ### Claims -/

/-- C1: for every metrics record, mode and configuration, the quality-gate
result has `deployment_ready = true` iff all three named gates passed and
the overall fidelity reaches `min_fidelity_production`; in particular
`deployment_ready` implies `overall_passed`, for every mode including
`ci`. -/
theorem C1_deployment_ready_iff (config : Config) (m : FidelityMetrics) (mode : String) :
    ((evaluate_quality_gates config m mode).deployment_ready = true ↔
      ((evaluate_quality_gates config m mode).overall_fidelity_gate.passed = true ∧
       (evaluate_quality_gates config m mode).identity_recognition_gate.passed = true ∧
       (evaluate_quality_gates config m mode).persona_consistency_gate.passed = true ∧
       config.quality_gates.min_fidelity_production ≤ m.overall_fidelity))
    ∧ ((evaluate_quality_gates config m mode).deployment_ready = true →
       (evaluate_quality_gates config m mode).overall_passed = true) := by
  simp only [evaluate_quality_gates, Bool.and_eq_true, decide_eq_true_eq, ge_iff_le]
  tauto

/-- Witness for C1: a `ci`-mode run with all scores `0.9` is
deployment-ready, hence `overall_passed`. -/
theorem C1_deployment_ready_iff_witness :
    (evaluate_quality_gates default_config metrics_all_09 "ci").overall_passed = true :=
  (C1_deployment_ready_iff default_config metrics_all_09 "ci").2 (by with_unfolding_all decide)

/-- C2: the minimum overall-fidelity threshold is selected by mode
(`relentless` → production, `ci` → development × 0.8, anything else →
development), and each named gate passes iff its score is at least its
recorded threshold (which is the selected one for the overall gate and
the configured identity/persona minima for the other two). -/
theorem C2_threshold_selection (config : Config) (m : FidelityMetrics) (mode : String) :
    ((evaluate_quality_gates config m mode).min_required_fidelity =
       (if mode = "relentless" then config.quality_gates.min_fidelity_production
        else if mode = "ci" then config.quality_gates.min_fidelity_development * (8/10)
        else config.quality_gates.min_fidelity_development))
    ∧ (evaluate_quality_gates config m mode).overall_fidelity_gate.threshold =
        (evaluate_quality_gates config m mode).min_required_fidelity
    ∧ (evaluate_quality_gates config m mode).identity_recognition_gate.threshold =
        config.quality_gates.min_identity_recognition
    ∧ (evaluate_quality_gates config m mode).persona_consistency_gate.threshold =
        config.quality_gates.min_persona_consistency
    ∧ ((evaluate_quality_gates config m mode).overall_fidelity_gate.passed = true ↔
        (evaluate_quality_gates config m mode).overall_fidelity_gate.threshold ≤
          (evaluate_quality_gates config m mode).overall_fidelity_gate.score)
    ∧ ((evaluate_quality_gates config m mode).identity_recognition_gate.passed = true ↔
        (evaluate_quality_gates config m mode).identity_recognition_gate.threshold ≤
          (evaluate_quality_gates config m mode).identity_recognition_gate.score)
    ∧ ((evaluate_quality_gates config m mode).persona_consistency_gate.passed = true ↔
        (evaluate_quality_gates config m mode).persona_consistency_gate.threshold ≤
          (evaluate_quality_gates config m mode).persona_consistency_gate.score) := by
  simp only [evaluate_quality_gates, decide_eq_true_eq, ge_iff_le]
  tauto

/-- Witness for C2: in `ci` mode with the default configuration the
applied minimum fidelity is `0.7 × 0.8 = 0.56`. -/
theorem C2_threshold_selection_witness :
    (evaluate_quality_gates default_config metrics_all_half "ci").min_required_fidelity
      = 14/25 := by
  rw [(C2_threshold_selection default_config metrics_all_half "ci").1]
  with_unfolding_all decide

/-- C3: when the quality gates failed (status `failed`, not
deployment-ready), next-action planning sets `retrain_required` and
`manual_review_needed` exactly when the overall-fidelity gate's score is
strictly below `0.5`, and otherwise sets `continue_training` and
`schedule_next_cycle`; a score of exactly `0.5` takes the
continue-training branch. -/
theorem C3_failed_branch (gs : QualityStatus) (recs : Recommendations) (mode : String)
    (h1 : gs.status = "failed") (h2 : gs.deployment_ready = false) :
    (((determine_next_actions gs recs mode).retrain_required = true ∧
      (determine_next_actions gs recs mode).manual_review_needed = true) ↔
      gs.overall_fidelity_gate.score < 1/2)
    ∧ (¬ gs.overall_fidelity_gate.score < 1/2 →
       (determine_next_actions gs recs mode).continue_training = true ∧
       (determine_next_actions gs recs mode).schedule_next_cycle = true) := by
  have hnp : ¬ (gs.status = "passed") := by rw [h1]; decide
  have hnd : ¬ (gs.deployment_ready = true) := by rw [h2]; decide
  have hb : determine_next_actions_branch gs mode =
      (if gs.overall_fidelity_gate.score < 1/2 then
        ⟨false, false, true, false, false, true⟩
      else ⟨true, false, false, false, true, false⟩) := by
    unfold determine_next_actions_branch
    rw [if_neg hnd, if_neg hnp]
  simp only [determine_next_actions]
  rw [hb]
  by_cases hs : gs.overall_fidelity_gate.score < 1/2
  · rw [if_pos hs]
    by_cases hm : mode = "relentless"
    · rw [if_pos ⟨hm, hnd⟩]
      exact ⟨⟨fun _ => hs, fun _ => ⟨rfl, rfl⟩⟩, fun hns => absurd hs hns⟩
    · rw [if_neg (fun hc => hm hc.1)]
      exact ⟨⟨fun _ => hs, fun _ => ⟨rfl, rfl⟩⟩, fun hns => absurd hs hns⟩
  · rw [if_neg hs]
    by_cases hm : mode = "relentless"
    · rw [if_pos ⟨hm, hnd⟩]
      exact ⟨iff_of_false (fun hcon => absurd hcon.1 (by decide)) hs,
             fun _ => ⟨rfl, rfl⟩⟩
    · rw [if_neg (fun hc => hm hc.1)]
      exact ⟨iff_of_false (fun hcon => absurd hcon.1 (by decide)) hs,
             fun _ => ⟨rfl, rfl⟩⟩

/-- Witness for C3: with all scores exactly `0.5` in `standard` mode
(spec Scenario A) the planner chooses continue-training, not retrain. -/
theorem C3_failed_branch_witness :
    (determine_next_actions (evaluate_quality_gates default_config metrics_all_half "standard")
        no_recommendations "standard").continue_training = true ∧
    (determine_next_actions (evaluate_quality_gates default_config metrics_all_half "standard")
        no_recommendations "standard").schedule_next_cycle = true :=
  (C3_failed_branch (evaluate_quality_gates default_config metrics_all_half "standard")
      no_recommendations "standard" (by with_unfolding_all decide)
      (by with_unfolding_all decide)).2 (by with_unfolding_all decide)

/-- C4: in `relentless` mode the automation triggers always request the
next training run with a delay equal to the configured relentless
interval (default `4` hours), for every gate result — in particular this
overrides the 1-hour quick-retry delay of the failure branch. -/
theorem C4_relentless_triggers (config : Config) (gs : QualityStatus) :
    (generate_automation_triggers config gs "relentless").trigger_next_training = true
    ∧ (generate_automation_triggers config gs "relentless").training_delay_hours
        = config.training_triggers.relentless_training_interval_hours
    ∧ default_config.training_triggers.relentless_training_interval_hours = 4 := by
  refine ⟨?_, ?_, rfl⟩ <;>
    · simp only [generate_automation_triggers, ite_true]
      split <;> rfl

/-- C5: trend classification uses strict inequalities on both sides
(provided the configured thresholds are ordered sanely,
`-max_performance_decline ≤ performance_improvement_threshold`, as the
defaults are): a change strictly above the improvement threshold is
`improving`/`good`, strictly below `-max_performance_decline` is
`declining`/`concerning`, and a change exactly equal to either boundary
is `stable`/`neutral`. -/
theorem C5_trend_boundaries (config : Config) (history : List HistoryEntry)
    (m : FidelityMetrics) (t : TrendResult)
    (hcfg : -config.quality_gates.max_performance_decline ≤
        config.training_triggers.performance_improvement_threshold)
    (hne : history ≠ [])
    (ht : analyze_performance_trends config history m = t) :
    (t.change > config.training_triggers.performance_improvement_threshold →
        t.trend = "improving" ∧ t.status = "good")
    ∧ (t.change < -config.quality_gates.max_performance_decline →
        t.trend = "declining" ∧ t.status = "concerning")
    ∧ ((t.change = config.training_triggers.performance_improvement_threshold ∨
        t.change = -config.quality_gates.max_performance_decline) →
        t.trend = "stable" ∧ t.status = "neutral") := by
  obtain ⟨last, hlast⟩ : ∃ e, history.getLast? = some e := by
    cases h : history.getLast? with
    | none => exact absurd (List.getLast?_eq_none_iff.mp h) hne
    | some e => exact ⟨e, rfl⟩
  subst ht
  simp only [analyze_performance_trends, hlast]
  by_cases hi : m.overall_fidelity - last.overall_fidelity >
      config.training_triggers.performance_improvement_threshold
  · rw [if_pos hi]
    refine ⟨fun _ => ⟨rfl, rfl⟩, fun hd => ?_, fun hb => ?_⟩
    · exfalso; dsimp only at hd; linarith
    · exfalso; dsimp only at hb; rcases hb with hb | hb <;> linarith
  · rw [if_neg hi]
    by_cases hd : m.overall_fidelity - last.overall_fidelity <
        -config.quality_gates.max_performance_decline
    · rw [if_pos hd]
      refine ⟨fun h => ?_, fun _ => ⟨rfl, rfl⟩, fun hb => ?_⟩
      · exfalso; dsimp only at h; exact hi h
      · exfalso; dsimp only at hb; rcases hb with hb | hb <;> linarith
    · rw [if_neg hd]
      refine ⟨fun h => ?_, fun h => ?_, fun _ => ⟨rfl, rfl⟩⟩
      · exfalso; dsimp only at h; exact hi h
      · exfalso; dsimp only at h; exact hd h

/-- Witness for C5: previous fidelity `0.6`, current `0.65` — the change
equals the default improvement threshold `0.05` exactly and classifies
as `stable`/`neutral`. -/
theorem C5_trend_boundaries_witness :
    (analyze_performance_trends default_config history_06
        ⟨0, 0, 0, 0, 0, 0, 13/20⟩).trend = "stable" ∧
    (analyze_performance_trends default_config history_06
        ⟨0, 0, 0, 0, 0, 0, 13/20⟩).status = "neutral" :=
  (C5_trend_boundaries default_config history_06 ⟨0, 0, 0, 0, 0, 0, 13/20⟩ _
      (by with_unfolding_all decide) (by simp [history_06]) rfl).2.2
    (Or.inl (by with_unfolding_all decide))

/-- C6: analyzing training results never modifies the improvement
history (it only caches the result); the history grows only on explicit
save, which appends exactly one entry holding the result's timestamp,
overall fidelity, quality-gate status and training mode; hence a second
evaluation performed after any unsaved evaluation produces the same
trend analysis as if the first had never happened. -/
theorem C6_history_only_grows_on_save (config : Config) (st : IntegratorState)
    (ts mp : String) (m : FidelityMetrics) (mode : String)
    (ts2 mp2 : String) (m2 : FidelityMetrics) (mode2 : String) :
    (analyze_training_results config st ts mp m mode).2.improvement_history
        = st.improvement_history
    ∧ (save_analysis_results st
          (analyze_training_results config st ts mp m mode).1).improvement_history
        = st.improvement_history ++
            [⟨ts, m.overall_fidelity, (evaluate_quality_gates config m mode).status, mode⟩]
    ∧ (analyze_training_results config (analyze_training_results config st ts mp m mode).2
          ts2 mp2 m2 mode2).1.performance_analysis
        = (analyze_training_results config st ts2 mp2 m2 mode2).1.performance_analysis :=
  ⟨rfl, rfl, rfl⟩

/-- C7 counterexample: with every score `0` (so the overall-fidelity
gate's score is below `0.7`) the generated hyperparameter-adjustment map
does NOT contain the key `max_iterations` — the source writes the key
`max_iters` instead. -/
theorem C7_counterexample :
    (evaluate_quality_gates default_config metrics_zero
        "standard").overall_fidelity_gate.score < 7/10
    ∧ ("max_iterations", "increase") ∉
        (generate_automation_triggers default_config
          (evaluate_quality_gates default_config metrics_zero "standard")
          "standard").hyperparameter_adjustments := by
  with_unfolding_all decide

/-- C7 (amended): when the overall-fidelity gate's score is strictly below
`0.7` the triggers' hyperparameter-adjustment map contains
`learning_rate=increase` and `max_iters=increase`; for a score of `0.7`
or more the map stays empty. -/
theorem C7_amended_adjustment_keys (config : Config) (gs : QualityStatus) (mode : String) :
    (gs.overall_fidelity_gate.score < 7/10 →
      ("learning_rate", "increase") ∈
          (generate_automation_triggers config gs mode).hyperparameter_adjustments
      ∧ ("max_iters", "increase") ∈
          (generate_automation_triggers config gs mode).hyperparameter_adjustments)
    ∧ (¬ gs.overall_fidelity_gate.score < 7/10 →
      (generate_automation_triggers config gs mode).hyperparameter_adjustments = []) := by
  constructor
  · intro hs
    simp only [generate_automation_triggers]
    rw [if_pos hs]
    constructor <;> · split <;> · split <;> simp
  · intro hs
    simp only [generate_automation_triggers]
    rw [if_neg hs]
    split <;> · split <;> rfl

/-- Witness for C7's amended claim at score `0`. -/
theorem C7_amended_adjustment_keys_witness :
    ("learning_rate", "increase") ∈
        (generate_automation_triggers default_config
          (evaluate_quality_gates default_config metrics_zero "standard")
          "standard").hyperparameter_adjustments
    ∧ ("max_iters", "increase") ∈
        (generate_automation_triggers default_config
          (evaluate_quality_gates default_config metrics_zero "standard")
          "standard").hyperparameter_adjustments :=
  (C7_amended_adjustment_keys default_config
      (evaluate_quality_gates default_config metrics_zero "standard") "standard").1
    (by with_unfolding_all decide)

/-- C8 counterexample: loading the configuration with a user override that
sets only `quality_gates.min_fidelity_production := 0.5` succeeds and
yields a configuration whose production threshold is strictly below its
development threshold — the merge performs no validation, so the claimed
`production ≥ development` invariant fails. -/
theorem C8_counterexample :
    parse_config (load_config (some c8_override)) = some c8_config
    ∧ c8_config.quality_gates.min_fidelity_production <
        c8_config.quality_gates.min_fidelity_development := by
  constructor
  · have h : load_config (some c8_override) = merged_json := by
      simp [load_config, c8_override, default_config_json, merged_json, deep_update, set_key]
    rw [h]
    with_unfolding_all decide
  · with_unfolding_all decide

/-- C8 (amended): for every loaded configuration the threshold actually
applied in `ci` mode equals `0.8 ×` the development threshold; the
`production ≥ development` ordering holds for the default configuration
(which is what loading with no override yields) but is not enforced
under user overrides. -/
theorem C8_amended_thresholds (user_config : List (String × JValue)) (c : Config)
    (m : FidelityMetrics)
    (h : parse_config (load_config (some user_config)) = some c) :
    (evaluate_quality_gates c m "ci").min_required_fidelity
        = c.quality_gates.min_fidelity_development * (8/10)
    ∧ default_config.quality_gates.min_fidelity_development ≤
        default_config.quality_gates.min_fidelity_production
    ∧ parse_config (load_config none) = some default_config := by
  refine ⟨?_, by with_unfolding_all decide, by with_unfolding_all decide⟩
  simp [evaluate_quality_gates]

/-- Witness for C8's amended claim: loading with an empty override yields
the default configuration, and its `ci` threshold is `0.8 × 0.7`. -/
theorem C8_amended_thresholds_witness :
    (evaluate_quality_gates default_config metrics_all_half "ci").min_required_fidelity
        = default_config.quality_gates.min_fidelity_development * (8/10) :=
  (C8_amended_thresholds [] default_config metrics_all_half
      (by simp only [load_config, deep_update]; with_unfolding_all decide)).1

/-- C9: for every gate result and mode, exactly one of `deploy_model`,
`continue_training`, `retrain_required` is set; `retrain_required`
always comes with `manual_review_needed`; and the cross-cutting
relentless rule changes only `schedule_next_cycle` — every other flag
equals its value from the branch part of the planner. -/
theorem C9_action_flag_invariants (gs : QualityStatus) (recs : Recommendations) (mode : String) :
    ((determine_next_actions gs recs mode).deploy_model.toNat
      + (determine_next_actions gs recs mode).continue_training.toNat
      + (determine_next_actions gs recs mode).retrain_required.toNat = 1)
    ∧ ((determine_next_actions gs recs mode).retrain_required = true →
        (determine_next_actions gs recs mode).manual_review_needed = true)
    ∧ (determine_next_actions gs recs mode).continue_training
        = (determine_next_actions_branch gs mode).continue_training
    ∧ (determine_next_actions gs recs mode).deploy_model
        = (determine_next_actions_branch gs mode).deploy_model
    ∧ (determine_next_actions gs recs mode).retrain_required
        = (determine_next_actions_branch gs mode).retrain_required
    ∧ (determine_next_actions gs recs mode).enable_relentless_mode
        = (determine_next_actions_branch gs mode).enable_relentless_mode
    ∧ (determine_next_actions gs recs mode).manual_review_needed
        = (determine_next_actions_branch gs mode).manual_review_needed := by
  have hfields : (determine_next_actions gs recs mode).continue_training
        = (determine_next_actions_branch gs mode).continue_training
      ∧ (determine_next_actions gs recs mode).deploy_model
        = (determine_next_actions_branch gs mode).deploy_model
      ∧ (determine_next_actions gs recs mode).retrain_required
        = (determine_next_actions_branch gs mode).retrain_required
      ∧ (determine_next_actions gs recs mode).enable_relentless_mode
        = (determine_next_actions_branch gs mode).enable_relentless_mode
      ∧ (determine_next_actions gs recs mode).manual_review_needed
        = (determine_next_actions_branch gs mode).manual_review_needed := by
    simp only [determine_next_actions]
    by_cases hc : mode = "relentless" ∧ ¬ gs.deployment_ready = true
    · rw [if_pos hc]; exact ⟨rfl, rfl, rfl, rfl, rfl⟩
    · rw [if_neg hc]; exact ⟨rfl, rfl, rfl, rfl, rfl⟩
  have hbranch : (determine_next_actions_branch gs mode).deploy_model.toNat
        + (determine_next_actions_branch gs mode).continue_training.toNat
        + (determine_next_actions_branch gs mode).retrain_required.toNat = 1
      ∧ ((determine_next_actions_branch gs mode).retrain_required = true →
          (determine_next_actions_branch gs mode).manual_review_needed = true) := by
    unfold determine_next_actions_branch
    by_cases h1 : gs.deployment_ready = true
    · rw [if_pos h1]
      by_cases hm : mode ≠ "relentless"
      · rw [if_pos hm]; exact ⟨rfl, fun h => absurd h (by decide)⟩
      · rw [if_neg hm]; exact ⟨rfl, fun h => absurd h (by decide)⟩
    · rw [if_neg h1]
      by_cases h3 : gs.status = "passed"
      · rw [if_pos h3]; exact ⟨rfl, fun h => absurd h (by decide)⟩
      · rw [if_neg h3]
        by_cases h4 : gs.overall_fidelity_gate.score < 1/2
        · rw [if_pos h4]; exact ⟨rfl, fun _ => rfl⟩
        · rw [if_neg h4]; exact ⟨rfl, fun h => absurd h (by decide)⟩
  refine ⟨?_, ?_, hfields.1, hfields.2.1, hfields.2.2.1, hfields.2.2.2.1, hfields.2.2.2.2⟩
  · rw [hfields.2.1, hfields.1, hfields.2.2.1]
    exact hbranch.1
  · rw [hfields.2.2.1, hfields.2.2.2.2]
    exact hbranch.2

/-- Witness for C9: at all-zero scores the planner requires manual
review along with the retrain flag. -/
theorem C9_action_flag_invariants_witness :
    (determine_next_actions (evaluate_quality_gates default_config metrics_zero "standard")
        no_recommendations "standard").manual_review_needed = true :=
  (C9_action_flag_invariants (evaluate_quality_gates default_config metrics_zero "standard")
      no_recommendations "standard").2.1 (by with_unfolding_all decide)

/-- A configuration differing from the defaults only in the `deployment`
group (every flag flipped). -/
def c10_variant_config : Config :=
  { default_config with deployment :=
      { enable_automated_deployment := true
        require_manual_approval := false
        staging_environment_tests := false } }

/-- C10: the `deployment` configuration group is never read by the
decision pipeline — two configurations agreeing outside it produce
identical analysis results on every input — and `deploy_model` can be
set while `enable_automated_deployment` is `false` (its default). -/
theorem C10_deployment_config_irrelevant (c1 c2 : Config)
    (h1 : c1.quality_gates = c2.quality_gates)
    (h2 : c1.training_triggers = c2.training_triggers)
    (h3 : c1.feedback_integration = c2.feedback_integration)
    (st : IntegratorState) (ts mp : String) (m : FidelityMetrics) (mode : String) :
    analyze_training_results c1 st ts mp m mode = analyze_training_results c2 st ts mp m mode
    ∧ default_config.deployment.enable_automated_deployment = false
    ∧ (analyze_training_results default_config ⟨[], []⟩ "t" "model"
          metrics_all_09 "standard").1.next_actions.deploy_model = true := by
  refine ⟨?_, rfl, by with_unfolding_all decide⟩
  obtain ⟨qg1, tt1, fi1, d1⟩ := c1
  obtain ⟨qg2, tt2, fi2, d2⟩ := c2
  obtain rfl : qg1 = qg2 := h1
  obtain rfl : tt1 = tt2 := h2
  obtain rfl : fi1 = fi2 := h3
  rfl

/-- Witness for C10: the default configuration and its deployment-flipped
variant yield identical analyses of the all-`0.5` metrics. -/
theorem C10_deployment_config_irrelevant_witness :
    analyze_training_results default_config ⟨[], []⟩ "t" "model" metrics_all_half "standard"
      = analyze_training_results c10_variant_config ⟨[], []⟩ "t" "model"
          metrics_all_half "standard" :=
  (C10_deployment_config_irrelevant default_config c10_variant_config rfl rfl rfl
      ⟨[], []⟩ "t" "model" metrics_all_half "standard").1

end NanEcho
